import Mathlib

/-
Verification of the cpuidle driver registry (drivers/cpuidle/driver.c).

The embedding models the CONFIG_CPU_IDLE_MULTIPLE_DRIVERS configuration:
the per-cpu slot array `cpuidle_drivers` becomes a function from unit ids
to optional driver ids, and the driver structs live in a heap indexed by
driver id (a C pointer becomes the id of the struct it points to).
Machine details that the claims do not touch (spinlocks, the actual
clockevents notification payloads) are modelled as an event trace; the
`on_each_cpu_mask(... BROADCAST_ON/OFF ...)` calls become emitted events.
-/

namespace ASKernel

/- Flag constants from include/linux/cpuidle.h. -/
def CPUIDLE_FLAG_TIME_VALID : Nat := 1

def CPUIDLE_FLAG_COUPLED : Nat := 2

def CPUIDLE_FLAG_TIMER_STOP : Nat := 4

/-- Enter callbacks are opaque to the registry: either the synthesized
`poll_idle` or some producer-supplied function identified by a tag. -/
inductive EnterCb where
  | poll : EnterCb
  | user : Nat → EnterCb
deriving DecidableEq

/-- One entry of struct cpuidle_driver's state table (struct cpuidle_state).
`power_usage` is an unsigned int in C; the assignment `power_usage = -1` in
`poll_idle_init` therefore stores 2^32 - 1. -/
structure CpuidleState where
  name : String
  desc : String
  exit_latency : Nat
  target_residency : Nat
  power_usage : Nat
  flags : Nat
  disabled : Bool
  enter : EnterCb
deriving DecidableEq

/-- struct cpuidle_driver: the fields the registry reads or writes.
`state_count` is the length of `states`; `cpumask = none` models a NULL
cpumask pointer; the mask itself is the list of cpu ids `for_each_cpu`
iterates over, in order. `bctimer` is the broadcast-timer flag. -/
structure CpuidleDriver where
  states : List CpuidleState
  cpumask : Option (List Nat)
  refcnt : Int
  bctimer : Bool
deriving DecidableEq

def CpuidleDriver.state_count (drv : CpuidleDriver) : Nat :=
  drv.states.length

/-- Build/runtime configuration: `possible` is cpu_possible_mask,
`cpuidle_off` is the result of `cpuidle_disabled()`, and
`arch_has_cpu_relax` selects the CONFIG_ARCH_HAS_CPU_RELAX branch of
`poll_idle_init`. -/
structure Config where
  possible : List Nat
  cpuidle_off : Bool
  arch_has_cpu_relax : Bool

/-- Global mutable state: the heap of driver structs and the per-cpu
`cpuidle_drivers` slots. -/
structure Sys where
  drivers : Nat → CpuidleDriver
  assoc : Nat → Option Nat

/-- Write one cell of the driver heap. -/
def updDrivers (h : Nat → CpuidleDriver) (d : Nat) (v : CpuidleDriver) :
    Nat → CpuidleDriver :=
  fun i => if i = d then v else h i

/-- per_cpu(cpuidle_drivers, cpu). -/
def __cpuidle_get_cpu_driver (sys : Sys) (cpu : Nat) : Option Nat :=
  sys.assoc cpu

/-- Model of __cpuidle_unset_driver: for each cpu in the driver's mask, clear the
slot when it currently points at this driver. -/
def __cpuidle_unset_driver (d : Nat) (mask : List Nat)
    (assoc : Nat → Option Nat) : Nat → Option Nat :=
  match mask with
  | [] => assoc
  | cpu :: rest =>
      __cpuidle_unset_driver d rest
        (if assoc cpu = some d then (fun c => if c = cpu then none else assoc c)
         else assoc)

/-- The loop of __cpuidle_set_driver: scan `rem`, writing the driver into
each free slot; on the first occupied slot, unwind with
__cpuidle_unset_driver over the driver's full mask and report -EBUSY
(the Bool is true on success). -/
def __cpuidle_set_driver_go (d : Nat) (full rem : List Nat)
    (assoc : Nat → Option Nat) : Bool × (Nat → Option Nat) :=
  match rem with
  | [] => (true, assoc)
  | cpu :: rest =>
      if (assoc cpu).isSome then
        (false, __cpuidle_unset_driver d full assoc)
      else
        __cpuidle_set_driver_go d full rest
          (fun c => if c = cpu then some d else assoc c)

/-- Model of __cpuidle_set_driver (CONFIG_CPU_IDLE_MULTIPLE_DRIVERS branch). -/
def __cpuidle_set_driver (d : Nat) (mask : List Nat)
    (assoc : Nat → Option Nat) : Bool × (Nat → Option Nat) :=
  __cpuidle_set_driver_go d mask mask assoc

/-- The test `drv->states[i].flags & CPUIDLE_FLAG_TIMER_STOP` of the
__cpuidle_driver_init loop. -/
def has_timer_stop (s : CpuidleState) : Bool :=
  (s.flags &&& CPUIDLE_FLAG_TIMER_STOP) != 0

/-- Model of __cpuidle_driver_init: reset refcnt, default a NULL cpumask to
cpu_possible_mask, then scan the state table; the loop sets `bctimer`
to 1 and breaks on the first state with CPUIDLE_FLAG_TIMER_STOP, and
leaves `bctimer` untouched otherwise. -/
def cpuidle_driver_init (possible : List Nat) (drv : CpuidleDriver) :
    CpuidleDriver :=
  if drv.states.any has_timer_stop then
    { drv with refcnt := 0, cpumask := some (drv.cpumask.getD possible), bctimer := true }
  else
    { drv with refcnt := 0, cpumask := some (drv.cpumask.getD possible) }

/-- The state written by poll_idle_init into states[0]:
name "POLL", zero latency and residency, power_usage = (unsigned)-1,
flags = CPUIDLE_FLAG_TIME_VALID, enter = poll_idle, not disabled. -/
def poll_state : CpuidleState :=
  { name := "POLL"
    desc := "CPUIDLE CORE POLL IDLE"
    exit_latency := 0
    target_residency := 0
    power_usage := 2 ^ 32 - 1
    flags := CPUIDLE_FLAG_TIME_VALID
    disabled := false
    enter := EnterCb.poll }

/-- poll_idle_init: under CONFIG_ARCH_HAS_CPU_RELAX it overwrites
states[0] with the polling state; otherwise it is a no-op. -/
def poll_idle_init (arch_has_cpu_relax : Bool) (drv : CpuidleDriver) :
    CpuidleDriver :=
  if arch_has_cpu_relax then { drv with states := drv.states.set 0 poll_state }
  else drv

/-- Broadcast-timer coordinator invocations
(`on_each_cpu_mask(mask, cpuidle_setup_broadcast_timer, ON/OFF, 1)`). -/
inductive BcastEvent where
  | enable : List Nat → BcastEvent
  | disable : List Nat → BcastEvent
deriving DecidableEq

/-- Return values of __cpuidle_register_driver. -/
inductive Errno where
  | ok : Errno
  | einval : Errno
  | enodev : Errno
  | ebusy : Errno
deriving DecidableEq

structure RegOut where
  ret : Errno
  sys : Sys
  events : List BcastEvent

/-- The effective mask a registration of this driver will claim: the
driver's own cpumask, or cpu_possible_mask when it is NULL. -/
def effMask (possible : List Nat) (drv : CpuidleDriver) : List Nat :=
  drv.cpumask.getD possible

/-- Model of __cpuidle_register_driver (wrapped by cpuidle_register_driver under
the driver lock): sanity checks, in-place init, mask claim, broadcast
timer arming, poll state injection. -/
def cpuidle_register_driver (cfg : Config) (sys : Sys) : Option Nat → RegOut
  | none => ⟨Errno.einval, sys, []⟩
  | some d =>
    if (sys.drivers d).states.length = 0 then ⟨Errno.einval, sys, []⟩
    else if cfg.cpuidle_off then ⟨Errno.enodev, sys, []⟩
    else if (__cpuidle_set_driver d
        ((cpuidle_driver_init cfg.possible (sys.drivers d)).cpumask.getD [])
        sys.assoc).1 then
      ⟨Errno.ok,
       { drivers := updDrivers sys.drivers d
           (poll_idle_init cfg.arch_has_cpu_relax
             (cpuidle_driver_init cfg.possible (sys.drivers d)))
         assoc := (__cpuidle_set_driver d
           ((cpuidle_driver_init cfg.possible (sys.drivers d)).cpumask.getD [])
           sys.assoc).2 },
       (if (cpuidle_driver_init cfg.possible (sys.drivers d)).bctimer then
          [BcastEvent.enable
            ((cpuidle_driver_init cfg.possible (sys.drivers d)).cpumask.getD [])]
        else [])⟩
    else
      ⟨Errno.ebusy,
       { drivers := updDrivers sys.drivers d
           (cpuidle_driver_init cfg.possible (sys.drivers d))
         assoc := (__cpuidle_set_driver d
           ((cpuidle_driver_init cfg.possible (sys.drivers d)).cpumask.getD [])
           sys.assoc).2 },
       []⟩

structure UnregOut where
  sys : Sys
  events : List BcastEvent
  warned : Bool

/-- Model of __cpuidle_unregister_driver: WARN and abort when refcnt > 0; else
disarm the broadcast timer when bctimer was set, then clear the driver's
slots. -/
def cpuidle_unregister_driver (sys : Sys) (d : Nat) : UnregOut :=
  if 0 < (sys.drivers d).refcnt then ⟨sys, [], true⟩
  else if (sys.drivers d).bctimer then
    ⟨{ drivers := updDrivers sys.drivers d ({ sys.drivers d with bctimer := false })
       assoc := __cpuidle_unset_driver d ((sys.drivers d).cpumask.getD [])
                  sys.assoc },
     [BcastEvent.disable ((sys.drivers d).cpumask.getD [])],
     false⟩
  else
    ⟨{ drivers := sys.drivers
       assoc := __cpuidle_unset_driver d ((sys.drivers d).cpumask.getD [])
                  sys.assoc },
     [],
     false⟩

structure RefOut where
  ret : Option Nat
  sys : Sys

/-- cpuidle_driver_ref: look up the current cpu's driver and bump its
refcount inside the same critical section. The acting cpu is a
parameter (`get_cpu()` in C). -/
def cpuidle_driver_ref (sys : Sys) (cpu : Nat) : RefOut :=
  match __cpuidle_get_cpu_driver sys cpu with
  | none => ⟨none, sys⟩
  | some d =>
      ⟨some d,
       { sys with
           drivers := updDrivers sys.drivers d
             ({ sys.drivers d with refcnt := (sys.drivers d).refcnt + 1 }) }⟩

/-- cpuidle_driver_unref: decrement the current cpu's driver refcount,
but WARN and leave it alone when it is already ≤ 0 (or no driver). -/
def cpuidle_driver_unref (sys : Sys) (cpu : Nat) : Sys :=
  match __cpuidle_get_cpu_driver sys cpu with
  | none => sys
  | some d =>
      if (sys.drivers d).refcnt ≤ 0 then sys
      else
        { sys with
            drivers := updDrivers sys.drivers d
              ({ sys.drivers d with refcnt := (sys.drivers d).refcnt - 1 }) }

/-- The registry operations, for reasoning about operation sequences. -/
inductive Op where
  | register : Option Nat → Op
  | unregister : Nat → Op
  | ref : Nat → Op
  | unref : Nat → Op

def step (cfg : Config) (sys : Sys) : Op → Sys
  | Op.register dp => (cpuidle_register_driver cfg sys dp).sys
  | Op.unregister d => (cpuidle_unregister_driver sys d).sys
  | Op.ref cpu => (cpuidle_driver_ref sys cpu).sys
  | Op.unref cpu => cpuidle_driver_unref sys cpu

def run (cfg : Config) (sys : Sys) : List Op → Sys
  | [] => sys
  | op :: ops => run cfg (step cfg sys op) ops

/-- True when the operation is a register or unregister of driver `d`,
the only operations that may change `d`'s bctimer flag. -/
def targetsDriver (op : Op) (d : Nat) : Bool :=
  match op with
  | Op.register dp => dp = some d
  | Op.unregister e => e = d
  | Op.ref _ => false
  | Op.unref _ => false

end ASKernel

namespace ASKernel

theorem updDrivers_same (h : Nat → CpuidleDriver) (d : Nat) (v : CpuidleDriver) :
    updDrivers h d v d = v := by
  simp [updDrivers]

theorem updDrivers_other (h : Nat → CpuidleDriver) (d : Nat) (v : CpuidleDriver)
    (i : Nat) (hne : i ≠ d) : updDrivers h d v i = h i := by
  simp [updDrivers, hne]

/-- Pointwise effect of the unwind loop: a slot is cleared exactly when it
lies in the mask and currently holds this driver. -/
theorem unset_apply (d : Nat) (mask : List Nat) (assoc : Nat → Option Nat)
    (u : Nat) :
    __cpuidle_unset_driver d mask assoc u =
      (if u ∈ mask ∧ assoc u = some d then none else assoc u) := by
  induction mask generalizing assoc with
  | nil => simp [__cpuidle_unset_driver]
  | cons cpu rest ih =>
      rw [__cpuidle_unset_driver, ih]
      by_cases hd : assoc cpu = some d
      · by_cases hu : u = cpu
        · subst hu
          simp [hd]
        · simp [hd, hu, List.mem_cons]
      · by_cases hu : u = cpu
        · subst hu
          simp [hd, List.mem_cons]
        · simp [hd, hu, List.mem_cons]

/-- After the unwind, no slot in the mask holds the driver. -/
theorem unset_not_d (d : Nat) (mask : List Nat) (assoc : Nat → Option Nat)
    (u : Nat) (hu : u ∈ mask) :
    __cpuidle_unset_driver d mask assoc u ≠ some d := by
  rw [unset_apply]
  by_cases hd : assoc u = some d
  · simp [hu, hd]
  · simp [hd]

/-- On a successful claim, every scanned slot holds the driver and the
rest of the map is unchanged. -/
theorem set_go_ok_apply (d : Nat) (full rem : List Nat)
    (assoc : Nat → Option Nat)
    (h : (__cpuidle_set_driver_go d full rem assoc).1 = true) (u : Nat) :
    (__cpuidle_set_driver_go d full rem assoc).2 u =
      (if u ∈ rem then some d else assoc u) := by
  induction rem generalizing assoc with
  | nil => simp [__cpuidle_set_driver_go]
  | cons cpu rest ih =>
      rw [__cpuidle_set_driver_go] at h ⊢
      by_cases hc : (assoc cpu).isSome
      · simp [hc] at h
      · simp only [hc, if_false, Bool.false_eq_true] at h ⊢
        rw [ih _ h]
        by_cases hu : u = cpu
        · subst hu
          by_cases hr : u ∈ rest <;> simp [hr]
        · simp [hu, List.mem_cons]

/-- Any occupied slot in the scanned mask makes the claim fail. -/
theorem set_go_busy (d : Nat) (full rem : List Nat)
    (assoc : Nat → Option Nat) (h : ∃ u ∈ rem, (assoc u).isSome) :
    (__cpuidle_set_driver_go d full rem assoc).1 = false := by
  induction rem generalizing assoc with
  | nil => simp at h
  | cons cpu rest ih =>
      rw [__cpuidle_set_driver_go]
      by_cases hc : (assoc cpu).isSome
      · simp [hc]
      · simp only [hc, if_false, Bool.false_eq_true]
        obtain ⟨u, hu, hsome⟩ := h
        rcases List.mem_cons.mp hu with h1 | h1
        · subst h1
          exact absurd hsome hc
        · apply ih
          refine ⟨u, h1, ?_⟩
          by_cases hu2 : u = cpu <;> simp [hu2, hsome]

/-- Pointwise effect of a failed claim: slots of the full mask holding the
driver are cleared (both the ones written during this scan — they were
free before — and any that held it already), everything else is intact. -/
theorem set_go_fail_apply (d : Nat) (full rem : List Nat)
    (assoc : Nat → Option Nat) (hsub : ∀ u ∈ rem, u ∈ full)
    (h : (__cpuidle_set_driver_go d full rem assoc).1 = false) (u : Nat) :
    (__cpuidle_set_driver_go d full rem assoc).2 u =
      (if u ∈ full ∧ assoc u = some d then none else assoc u) := by
  induction rem generalizing assoc with
  | nil =>
      rw [__cpuidle_set_driver_go] at h
      simp at h
  | cons cpu rest ih =>
      rw [__cpuidle_set_driver_go] at h ⊢
      by_cases hc : (assoc cpu).isSome
      · simp only [hc, if_true]
        exact unset_apply d full assoc u
      · have hnone : assoc cpu = none := Option.not_isSome_iff_eq_none.mp hc
        simp only [hc, if_false, Bool.false_eq_true] at h ⊢
        have hsub' : ∀ v ∈ rest, v ∈ full := fun v hv => hsub v (List.mem_cons_of_mem _ hv)
        rw [ih _ hsub' h]
        have hcpu_full : cpu ∈ full := hsub cpu (List.mem_cons_self _ _)
        by_cases hu : u = cpu
        · subst hu
          simp [hcpu_full, hnone]
        · simp [hu]

theorem set_ok_apply (d : Nat) (mask : List Nat) (assoc : Nat → Option Nat)
    (h : (__cpuidle_set_driver d mask assoc).1 = true) (u : Nat) :
    (__cpuidle_set_driver d mask assoc).2 u =
      (if u ∈ mask then some d else assoc u) :=
  set_go_ok_apply d mask mask assoc h u

theorem set_busy (d : Nat) (mask : List Nat) (assoc : Nat → Option Nat)
    (h : ∃ u ∈ mask, (assoc u).isSome) :
    (__cpuidle_set_driver d mask assoc).1 = false :=
  set_go_busy d mask mask assoc h

theorem set_fail_apply (d : Nat) (mask : List Nat) (assoc : Nat → Option Nat)
    (h : (__cpuidle_set_driver d mask assoc).1 = false) (u : Nat) :
    (__cpuidle_set_driver d mask assoc).2 u =
      (if u ∈ mask ∧ assoc u = some d then none else assoc u) :=
  set_go_fail_apply d mask mask assoc (fun _ hu => hu) h u

theorem init_refcnt (p : List Nat) (drv : CpuidleDriver) :
    (cpuidle_driver_init p drv).refcnt = 0 := by
  unfold cpuidle_driver_init
  split <;> rfl

theorem init_states (p : List Nat) (drv : CpuidleDriver) :
    (cpuidle_driver_init p drv).states = drv.states := by
  unfold cpuidle_driver_init
  split <;> rfl

theorem init_cpumask (p : List Nat) (drv : CpuidleDriver) :
    (cpuidle_driver_init p drv).cpumask = some (effMask p drv) := by
  unfold cpuidle_driver_init effMask
  split <;> rfl

theorem init_bctimer (p : List Nat) (drv : CpuidleDriver) :
    (cpuidle_driver_init p drv).bctimer =
      (drv.states.any has_timer_stop || drv.bctimer) := by
  unfold cpuidle_driver_init
  split_ifs with h
  · simp [h]
  · simp only [Bool.not_eq_true] at h
    simp [h]

theorem init_mask_getD (p : List Nat) (drv : CpuidleDriver) :
    (cpuidle_driver_init p drv).cpumask.getD [] = effMask p drv := by
  rw [init_cpumask]
  rfl

theorem poll_refcnt (r : Bool) (drv : CpuidleDriver) :
    (poll_idle_init r drv).refcnt = drv.refcnt := by
  unfold poll_idle_init
  split <;> rfl

theorem poll_cpumask (r : Bool) (drv : CpuidleDriver) :
    (poll_idle_init r drv).cpumask = drv.cpumask := by
  unfold poll_idle_init
  split <;> rfl

theorem poll_bctimer (r : Bool) (drv : CpuidleDriver) :
    (poll_idle_init r drv).bctimer = drv.bctimer := by
  unfold poll_idle_init
  split <;> rfl

theorem poll_states_head (drv : CpuidleDriver) (h : drv.states ≠ []) :
    (poll_idle_init true drv).states.head? = some poll_state := by
  unfold poll_idle_init
  simp only [if_true]
  cases hs : drv.states with
  | nil => exact absurd hs h
  | cons a t => simp [hs]

end ASKernel

namespace ASKernel

/-- Shape of a successful registration. -/
theorem register_ok_eq (cfg : Config) (sys : Sys) (d : Nat)
    (h1 : ¬(sys.drivers d).states.length = 0)
    (h2 : cfg.cpuidle_off = false)
    (h3 : (__cpuidle_set_driver d (effMask cfg.possible (sys.drivers d))
            sys.assoc).1 = true) :
    cpuidle_register_driver cfg sys (some d) =
      ⟨Errno.ok,
       { drivers := updDrivers sys.drivers d
           (poll_idle_init cfg.arch_has_cpu_relax
             (cpuidle_driver_init cfg.possible (sys.drivers d)))
         assoc := (__cpuidle_set_driver d (effMask cfg.possible (sys.drivers d))
                    sys.assoc).2 },
       (if (cpuidle_driver_init cfg.possible (sys.drivers d)).bctimer then
          [BcastEvent.enable (effMask cfg.possible (sys.drivers d))]
        else [])⟩ := by
  simp only [cpuidle_register_driver]
  rw [init_mask_getD]
  rw [if_neg h1, if_neg (by simp [h2]), if_pos h3]

/-- Shape of a registration that fails on a busy unit. -/
theorem register_busy_eq (cfg : Config) (sys : Sys) (d : Nat)
    (h1 : ¬(sys.drivers d).states.length = 0)
    (h2 : cfg.cpuidle_off = false)
    (h3 : (__cpuidle_set_driver d (effMask cfg.possible (sys.drivers d))
            sys.assoc).1 = false) :
    cpuidle_register_driver cfg sys (some d) =
      ⟨Errno.ebusy,
       { drivers := updDrivers sys.drivers d
           (cpuidle_driver_init cfg.possible (sys.drivers d))
         assoc := (__cpuidle_set_driver d (effMask cfg.possible (sys.drivers d))
                    sys.assoc).2 },
       []⟩ := by
  simp only [cpuidle_register_driver]
  rw [init_mask_getD]
  rw [if_neg h1, if_neg (by simp [h2]), if_neg (by simp [h3])]

/-- A result of 0 pins down the path taken through the registration. -/
theorem register_ret_ok (cfg : Config) (sys : Sys) (d : Nat)
    (h : (cpuidle_register_driver cfg sys (some d)).ret = Errno.ok) :
    ¬(sys.drivers d).states.length = 0 ∧ cfg.cpuidle_off = false ∧
      (__cpuidle_set_driver d (effMask cfg.possible (sys.drivers d))
        sys.assoc).1 = true := by
  by_cases h1 : (sys.drivers d).states.length = 0
  · simp only [cpuidle_register_driver] at h
    rw [if_pos h1] at h
    simp at h
  · by_cases h2 : cfg.cpuidle_off = true
    · simp only [cpuidle_register_driver] at h
      rw [if_neg h1, if_pos h2] at h
      simp at h
    · by_cases h3 : (__cpuidle_set_driver d
          (effMask cfg.possible (sys.drivers d)) sys.assoc).1 = true
      · exact ⟨h1, by simpa using h2, h3⟩
      · simp only [cpuidle_register_driver] at h
        rw [init_mask_getD, if_neg h1, if_neg h2, if_neg h3] at h
        simp at h

/-- A result of -EBUSY pins down the path taken through the registration. -/
theorem register_ret_ebusy (cfg : Config) (sys : Sys) (d : Nat)
    (h : (cpuidle_register_driver cfg sys (some d)).ret = Errno.ebusy) :
    ¬(sys.drivers d).states.length = 0 ∧ cfg.cpuidle_off = false ∧
      (__cpuidle_set_driver d (effMask cfg.possible (sys.drivers d))
        sys.assoc).1 = false := by
  by_cases h1 : (sys.drivers d).states.length = 0
  · simp only [cpuidle_register_driver] at h
    rw [if_pos h1] at h
    simp at h
  · by_cases h2 : cfg.cpuidle_off = true
    · simp only [cpuidle_register_driver] at h
      rw [if_neg h1, if_pos h2] at h
      simp at h
    · by_cases h3 : (__cpuidle_set_driver d
          (effMask cfg.possible (sys.drivers d)) sys.assoc).1 = true
      · simp only [cpuidle_register_driver] at h
        rw [init_mask_getD, if_neg h1, if_neg (by simpa using h2), if_pos h3] at h
        simp at h
      · exact ⟨h1, by simpa using h2, by simpa using h3⟩

/-- Claim C2: when registration of a driver with a non-empty state table
succeeds, every unit of the effective mask is associated with the driver,
its refcount is 0, and a NULL mask has been defaulted to all possible
units. -/
theorem C2_register_success_postcondition (cfg : Config) (sys : Sys) (d : Nat)
    (h : (cpuidle_register_driver cfg sys (some d)).ret = Errno.ok) :
    (∀ u ∈ effMask cfg.possible (sys.drivers d),
        (cpuidle_register_driver cfg sys (some d)).sys.assoc u = some d) ∧
    ((cpuidle_register_driver cfg sys (some d)).sys.drivers d).refcnt = 0 ∧
    ((sys.drivers d).cpumask = none →
      ((cpuidle_register_driver cfg sys (some d)).sys.drivers d).cpumask =
        some cfg.possible) := by
  obtain ⟨h1, h2, h3⟩ := register_ret_ok cfg sys d h
  rw [register_ok_eq cfg sys d h1 h2 h3]
  refine ⟨?_, ?_, ?_⟩
  · intro u hu
    show (__cpuidle_set_driver d (effMask cfg.possible (sys.drivers d))
            sys.assoc).2 u = some d
    rw [set_ok_apply d _ sys.assoc h3 u, if_pos hu]
  · show (updDrivers sys.drivers d
      (poll_idle_init cfg.arch_has_cpu_relax
        (cpuidle_driver_init cfg.possible (sys.drivers d))) d).refcnt = 0
    rw [updDrivers_same, poll_refcnt, init_refcnt]
  · intro hnull
    show (updDrivers sys.drivers d
      (poll_idle_init cfg.arch_has_cpu_relax
        (cpuidle_driver_init cfg.possible (sys.drivers d))) d).cpumask =
        some cfg.possible
    rw [updDrivers_same, poll_cpumask, init_cpumask]
    simp [effMask, hnull]

/-- Claim C9: when the architecture has a cheap busy-wait primitive, a
successful registration leaves the synthesized polling state at index 0
of the driver's state table: zero exit latency, zero target residency,
maximal power usage, flags = TIME_VALID, not disabled, polling callback —
whatever the producer put there. -/
theorem C9_poll_state_injection (cfg : Config) (sys : Sys) (d : Nat)
    (hrelax : cfg.arch_has_cpu_relax = true)
    (h : (cpuidle_register_driver cfg sys (some d)).ret = Errno.ok) :
    ((cpuidle_register_driver cfg sys (some d)).sys.drivers d).states.head? =
      some poll_state ∧
    poll_state.exit_latency = 0 ∧ poll_state.target_residency = 0 ∧
    poll_state.power_usage = 2 ^ 32 - 1 ∧
    poll_state.flags = CPUIDLE_FLAG_TIME_VALID ∧
    poll_state.disabled = false ∧ poll_state.enter = EnterCb.poll := by
  obtain ⟨h1, h2, h3⟩ := register_ret_ok cfg sys d h
  rw [register_ok_eq cfg sys d h1 h2 h3]
  refine ⟨?_, rfl, rfl, rfl, rfl, rfl, rfl⟩
  show (updDrivers sys.drivers d
    (poll_idle_init cfg.arch_has_cpu_relax
      (cpuidle_driver_init cfg.possible (sys.drivers d))) d).states.head? =
      some poll_state
  rw [updDrivers_same, hrelax]
  apply poll_states_head
  rw [init_states]
  intro hnil
  exact h1 (by rw [hnil]; rfl)

end ASKernel

namespace ASKernel

theorem register_none_eq (cfg : Config) (sys : Sys) :
    cpuidle_register_driver cfg sys none = ⟨Errno.einval, sys, []⟩ :=
  rfl

theorem register_einval_eq (cfg : Config) (sys : Sys) (d : Nat)
    (h1 : (sys.drivers d).states.length = 0) :
    cpuidle_register_driver cfg sys (some d) = ⟨Errno.einval, sys, []⟩ := by
  simp only [cpuidle_register_driver]
  rw [if_pos h1]

theorem register_enodev_eq (cfg : Config) (sys : Sys) (d : Nat)
    (h1 : ¬(sys.drivers d).states.length = 0) (h2 : cfg.cpuidle_off = true) :
    cpuidle_register_driver cfg sys (some d) = ⟨Errno.enodev, sys, []⟩ := by
  simp only [cpuidle_register_driver]
  rw [if_neg h1, if_pos h2]

/-- Claim C1, amended: a registration that meets a unit held by another
driver fails -EBUSY; afterwards no unit of the mask belongs to the
registering driver, every association to a different driver is unchanged,
and slots outside the mask are unchanged. (Slots inside the mask that
held the registering driver itself are cleared by the unwind, which is
what the amendment concedes.) -/
theorem C1_register_conflict_rollback (cfg : Config) (sys : Sys) (d : Nat)
    (M : List Nat)
    (hmask : (sys.drivers d).cpumask = some M)
    (hst : (sys.drivers d).states ≠ [])
    (hoff : cfg.cpuidle_off = false)
    (hbusy : ∃ u ∈ M, ∃ e, sys.assoc u = some e ∧ e ≠ d) :
    (cpuidle_register_driver cfg sys (some d)).ret = Errno.ebusy ∧
    (∀ u ∈ M, (cpuidle_register_driver cfg sys (some d)).sys.assoc u ≠ some d) ∧
    (∀ u, sys.assoc u ≠ some d →
      (cpuidle_register_driver cfg sys (some d)).sys.assoc u = sys.assoc u) ∧
    (∀ u, u ∉ M →
      (cpuidle_register_driver cfg sys (some d)).sys.assoc u = sys.assoc u) := by
  have hM : effMask cfg.possible (sys.drivers d) = M := by
    simp [effMask, hmask]
  have h1 : ¬(sys.drivers d).states.length = 0 := by
    simpa [List.length_eq_zero] using hst
  have hfail : (__cpuidle_set_driver d (effMask cfg.possible (sys.drivers d))
      sys.assoc).1 = false := by
    rw [hM]
    apply set_busy
    obtain ⟨u, hu, e, he, _⟩ := hbusy
    exact ⟨u, hu, by simp [he]⟩
  rw [register_busy_eq cfg sys d h1 hoff hfail]
  refine ⟨rfl, ?_, ?_, ?_⟩
  · intro u hu
    show (__cpuidle_set_driver d (effMask cfg.possible (sys.drivers d))
      sys.assoc).2 u ≠ some d
    rw [set_fail_apply d _ sys.assoc hfail u, hM]
    by_cases hd : sys.assoc u = some d
    · simp [hu, hd]
    · simp [hd]
  · intro u hd
    show (__cpuidle_set_driver d (effMask cfg.possible (sys.drivers d))
      sys.assoc).2 u = sys.assoc u
    rw [set_fail_apply d _ sys.assoc hfail u]
    simp [hd]
  · intro u hu
    show (__cpuidle_set_driver d (effMask cfg.possible (sys.drivers d))
      sys.assoc).2 u = sys.assoc u
    rw [set_fail_apply d _ sys.assoc hfail u, hM]
    simp [hu]

/-- Claim C10: re-registering an already registered driver (every unit of
its non-empty mask maps to it, and nothing outside does) fails -EBUSY and
afterwards no unit at all is associated with it: the unwind erases the
previous registration. -/
theorem C10_reregister_erases (cfg : Config) (sys : Sys) (d : Nat)
    (M : List Nat)
    (hmask : (sys.drivers d).cpumask = some M)
    (hst : (sys.drivers d).states ≠ [])
    (hoff : cfg.cpuidle_off = false)
    (hne : M ≠ [])
    (hreg : ∀ u ∈ M, sys.assoc u = some d)
    (hout : ∀ u, sys.assoc u = some d → u ∈ M) :
    (cpuidle_register_driver cfg sys (some d)).ret = Errno.ebusy ∧
    (∀ u, (cpuidle_register_driver cfg sys (some d)).sys.assoc u ≠ some d) := by
  have hM : effMask cfg.possible (sys.drivers d) = M := by
    simp [effMask, hmask]
  have h1 : ¬(sys.drivers d).states.length = 0 := by
    simpa [List.length_eq_zero] using hst
  have hfail : (__cpuidle_set_driver d (effMask cfg.possible (sys.drivers d))
      sys.assoc).1 = false := by
    rw [hM]
    apply set_busy
    obtain ⟨u, hu⟩ := List.exists_mem_of_ne_nil M hne
    exact ⟨u, hu, by simp [hreg u hu]⟩
  rw [register_busy_eq cfg sys d h1 hoff hfail]
  refine ⟨rfl, ?_⟩
  intro u
  show (__cpuidle_set_driver d (effMask cfg.possible (sys.drivers d))
    sys.assoc).2 u ≠ some d
  rw [set_fail_apply d _ sys.assoc hfail u, hM]
  by_cases hu : u ∈ M
  · simp [hu, hreg u hu]
  · have hnd : sys.assoc u ≠ some d := fun hc => hu (hout u hc)
    simp [hu, hnd]

/-- Claim C4, amended: a successful registration invokes the coordinator's
enable exactly once over exactly the driver's effective mask iff the state
table has a TIMER_STOP state or the driver's broadcast flag was already
set before the call (the initializer never clears the flag), and an
immediately following unregister invokes the symmetric disable over the
same mask under exactly the same condition. -/
theorem C4_broadcast_events (cfg : Config) (sys : Sys) (d : Nat)
    (h : (cpuidle_register_driver cfg sys (some d)).ret = Errno.ok) :
    ((cpuidle_register_driver cfg sys (some d)).events =
      (if ((sys.drivers d).states.any has_timer_stop || (sys.drivers d).bctimer)
       then [BcastEvent.enable (effMask cfg.possible (sys.drivers d))]
       else [])) ∧
    ((cpuidle_unregister_driver (cpuidle_register_driver cfg sys (some d)).sys
        d).events =
      (if ((sys.drivers d).states.any has_timer_stop || (sys.drivers d).bctimer)
       then [BcastEvent.disable (effMask cfg.possible (sys.drivers d))]
       else [])) := by
  obtain ⟨h1, h2, h3⟩ := register_ret_ok cfg sys d h
  rw [register_ok_eq cfg sys d h1 h2 h3]
  constructor
  · show (if (cpuidle_driver_init cfg.possible (sys.drivers d)).bctimer = true
      then [BcastEvent.enable (effMask cfg.possible (sys.drivers d))]
      else []) = _
    rw [init_bctimer]
  · by_cases hB : ((sys.drivers d).states.any has_timer_stop ||
        (sys.drivers d).bctimer) = true
    · simp [cpuidle_unregister_driver, updDrivers_same, poll_refcnt, init_refcnt,
        poll_bctimer, init_bctimer, poll_cpumask, init_cpumask, hB]
    · simp [cpuidle_unregister_driver, updDrivers_same, poll_refcnt, init_refcnt,
        poll_bctimer, init_bctimer, poll_cpumask, init_cpumask, hB]

/-- Claim C6, amended: on InvalidDriver and FrameworkDisabled nothing at
all changes; on UnitBusy the registry map gains no association to the
driver and loses none to other drivers, and the driver's state table is
untouched — but the in-place initialization persists: refcount reset to
0, a NULL mask defaulted to all possible units, the broadcast flag
possibly set by the scan. -/
theorem C6_register_error_effects (cfg : Config) (sys : Sys) (d : Nat) :
    (((cpuidle_register_driver cfg sys (some d)).ret = Errno.einval ∨
      (cpuidle_register_driver cfg sys (some d)).ret = Errno.enodev) →
        (cpuidle_register_driver cfg sys (some d)).sys = sys ∧
        (cpuidle_register_driver cfg sys (some d)).events = []) ∧
    ((cpuidle_register_driver cfg sys (some d)).ret = Errno.ebusy →
        ((cpuidle_register_driver cfg sys (some d)).sys.drivers d).states =
          (sys.drivers d).states ∧
        ((cpuidle_register_driver cfg sys (some d)).sys.drivers d).refcnt = 0 ∧
        ((cpuidle_register_driver cfg sys (some d)).sys.drivers d).cpumask =
          some (effMask cfg.possible (sys.drivers d)) ∧
        ((cpuidle_register_driver cfg sys (some d)).sys.drivers d).bctimer =
          ((sys.drivers d).states.any has_timer_stop ||
            (sys.drivers d).bctimer) ∧
        (∀ u, sys.assoc u ≠ some d →
          (cpuidle_register_driver cfg sys (some d)).sys.assoc u =
            sys.assoc u) ∧
        (cpuidle_register_driver cfg sys (some d)).events = []) := by
  constructor
  · intro herr
    by_cases h1 : (sys.drivers d).states.length = 0
    · rw [register_einval_eq cfg sys d h1]
      exact ⟨rfl, rfl⟩
    · by_cases h2 : cfg.cpuidle_off = true
      · rw [register_enodev_eq cfg sys d h1 h2]
        exact ⟨rfl, rfl⟩
      · exfalso
        by_cases h3 : (__cpuidle_set_driver d
            (effMask cfg.possible (sys.drivers d)) sys.assoc).1 = true
        · rw [register_ok_eq cfg sys d h1 (by simpa using h2) h3] at herr
          rcases herr with hx | hx <;> simp at hx
        · rw [register_busy_eq cfg sys d h1 (by simpa using h2)
            (by simpa using h3)] at herr
          rcases herr with hx | hx <;> simp at hx
  · intro hb
    obtain ⟨h1, h2, h3⟩ := register_ret_ebusy cfg sys d hb
    rw [register_busy_eq cfg sys d h1 h2 h3]
    refine ⟨?_, ?_, ?_, ?_, ?_, rfl⟩
    · show (updDrivers sys.drivers d
        (cpuidle_driver_init cfg.possible (sys.drivers d)) d).states = _
      rw [updDrivers_same, init_states]
    · show (updDrivers sys.drivers d
        (cpuidle_driver_init cfg.possible (sys.drivers d)) d).refcnt = 0
      rw [updDrivers_same, init_refcnt]
    · show (updDrivers sys.drivers d
        (cpuidle_driver_init cfg.possible (sys.drivers d)) d).cpumask = _
      rw [updDrivers_same, init_cpumask]
    · show (updDrivers sys.drivers d
        (cpuidle_driver_init cfg.possible (sys.drivers d)) d).bctimer = _
      rw [updDrivers_same, init_bctimer]
    · intro u hu
      show (__cpuidle_set_driver d (effMask cfg.possible (sys.drivers d))
        sys.assoc).2 u = sys.assoc u
      rw [set_fail_apply d _ sys.assoc h3 u]
      simp [hu]

end ASKernel

namespace ASKernel

theorem register_drivers_other (cfg : Config) (sys : Sys) (e i : Nat)
    (hne : i ≠ e) :
    (cpuidle_register_driver cfg sys (some e)).sys.drivers i = sys.drivers i := by
  simp only [cpuidle_register_driver]
  split_ifs with h1 h2 h3 h4
  · rfl
  · rfl
  · simp [updDrivers, hne]
  · simp [updDrivers, hne]
  · simp [updDrivers, hne]

theorem unregister_drivers_other (sys : Sys) (e i : Nat) (hne : i ≠ e) :
    (cpuidle_unregister_driver sys e).sys.drivers i = sys.drivers i := by
  unfold cpuidle_unregister_driver
  split_ifs with hp hb
  · rfl
  · simp [updDrivers, hne]
  · rfl

/-- Unregistration never touches any reference count. -/
theorem unregister_refcnt (sys : Sys) (e i : Nat) :
    ((cpuidle_unregister_driver sys e).sys.drivers i).refcnt =
      (sys.drivers i).refcnt := by
  unfold cpuidle_unregister_driver
  split_ifs with hp hb
  · rfl
  · by_cases hie : i = e
    · subst hie
      simp [updDrivers]
    · simp [updDrivers, hie]
  · rfl

/-- Registration either resets the driver's own refcount to 0 (after the
in-place init ran) or leaves it alone (early error exits). -/
theorem register_refcnt_self (cfg : Config) (sys : Sys) (d : Nat) :
    ((cpuidle_register_driver cfg sys (some d)).sys.drivers d).refcnt = 0 ∨
    ((cpuidle_register_driver cfg sys (some d)).sys.drivers d).refcnt =
      (sys.drivers d).refcnt := by
  simp only [cpuidle_register_driver]
  split_ifs with h1 h2 h3 h4
  · right
    rfl
  · right
    rfl
  · left
    simp [updDrivers, poll_refcnt, init_refcnt]
  · left
    simp [updDrivers, poll_refcnt, init_refcnt]
  · left
    simp [updDrivers, init_refcnt]

/-- Every single operation preserves nonnegativity of a driver's
reference count. -/
theorem step_refcnt_nonneg (cfg : Config) (sys : Sys) (op : Op) (d : Nat)
    (h : 0 ≤ (sys.drivers d).refcnt) :
    0 ≤ ((step cfg sys op).drivers d).refcnt := by
  cases op with
  | register dp =>
      cases dp with
      | none => exact h
      | some e =>
          show 0 ≤ ((cpuidle_register_driver cfg sys (some e)).sys.drivers d).refcnt
          by_cases he : d = e
          · subst he
            rcases register_refcnt_self cfg sys d with hc | hc <;> omega
          · rw [register_drivers_other cfg sys e d he]
            exact h
  | unregister e =>
      show 0 ≤ ((cpuidle_unregister_driver sys e).sys.drivers d).refcnt
      rw [unregister_refcnt]
      exact h
  | ref cpu =>
      show 0 ≤ ((cpuidle_driver_ref sys cpu).sys.drivers d).refcnt
      unfold cpuidle_driver_ref __cpuidle_get_cpu_driver
      cases hc : sys.assoc cpu with
      | none => exact h
      | some e =>
          by_cases he : d = e
          · subst he
            simp only [updDrivers]
            simp
            omega
          · simp [updDrivers, he, h]
  | unref cpu =>
      show 0 ≤ ((cpuidle_driver_unref sys cpu).drivers d).refcnt
      unfold cpuidle_driver_unref __cpuidle_get_cpu_driver
      cases hc : sys.assoc cpu with
      | none => exact h
      | some e =>
          dsimp only
          split_ifs with hle
          · exact h
          · by_cases he : d = e
            · subst he
              simp only [updDrivers]
              simp
              omega
            · simp [updDrivers, he, h]

theorem run_refcnt_nonneg (cfg : Config) (sys : Sys) (ops : List Op) (d : Nat)
    (h : 0 ≤ (sys.drivers d).refcnt) :
    0 ≤ ((run cfg sys ops).drivers d).refcnt := by
  induction ops generalizing sys with
  | nil => exact h
  | cons op rest ih => exact ih (step cfg sys op) (step_refcnt_nonneg cfg sys op d h)

/-- Claim C3: unregistering a driver with a positive refcount is a
reported no-op (nothing changes, no coordinator call, the WARN fires);
with refcount 0 it proceeds, after which no unit of the driver's mask is
associated with it — and if the driver was registered (all mask units
mapped to it), all those units are cleared to unassociated. -/
theorem C3_unregister_refcount_gate (sys : Sys) (d : Nat) :
    (0 < (sys.drivers d).refcnt →
      (cpuidle_unregister_driver sys d).sys = sys ∧
      (cpuidle_unregister_driver sys d).events = [] ∧
      (cpuidle_unregister_driver sys d).warned = true) ∧
    ((sys.drivers d).refcnt = 0 →
      (∀ u ∈ (sys.drivers d).cpumask.getD [],
        (cpuidle_unregister_driver sys d).sys.assoc u ≠ some d) ∧
      ((∀ u ∈ (sys.drivers d).cpumask.getD [], sys.assoc u = some d) →
        ∀ u ∈ (sys.drivers d).cpumask.getD [],
          (cpuidle_unregister_driver sys d).sys.assoc u = none)) := by
  constructor
  · intro hpos
    unfold cpuidle_unregister_driver
    rw [if_pos hpos]
    exact ⟨rfl, rfl, rfl⟩
  · intro hz
    have hneg : ¬0 < (sys.drivers d).refcnt := by
      rw [hz]
      exact lt_irrefl 0
    constructor
    · intro u hu
      unfold cpuidle_unregister_driver
      rw [if_neg hneg]
      by_cases hbc : (sys.drivers d).bctimer = true
      · rw [if_pos hbc]
        exact unset_not_d d _ sys.assoc u hu
      · rw [if_neg hbc]
        exact unset_not_d d _ sys.assoc u hu
    · intro hall u hu
      unfold cpuidle_unregister_driver
      rw [if_neg hneg]
      by_cases hbc : (sys.drivers d).bctimer = true
      · rw [if_pos hbc]
        show __cpuidle_unset_driver d ((sys.drivers d).cpumask.getD [])
          sys.assoc u = none
        rw [unset_apply]
        simp [hu, hall u hu]
      · rw [if_neg hbc]
        show __cpuidle_unset_driver d ((sys.drivers d).cpumask.getD [])
          sys.assoc u = none
        rw [unset_apply]
        simp [hu, hall u hu]

/-- Claim C7: acquiring from a unit with no driver returns none and
changes nothing; otherwise it returns exactly the associated driver with
its refcount incremented by one, all its other fields, every other
driver, and the association map untouched. -/
theorem C7_acquire_spec (sys : Sys) (u : Nat) :
    (sys.assoc u = none →
      (cpuidle_driver_ref sys u).ret = none ∧
      (cpuidle_driver_ref sys u).sys = sys) ∧
    (∀ d, sys.assoc u = some d →
      (cpuidle_driver_ref sys u).ret = some d ∧
      ((cpuidle_driver_ref sys u).sys.drivers d).refcnt =
        (sys.drivers d).refcnt + 1 ∧
      ((cpuidle_driver_ref sys u).sys.drivers d).states =
        (sys.drivers d).states ∧
      ((cpuidle_driver_ref sys u).sys.drivers d).cpumask =
        (sys.drivers d).cpumask ∧
      ((cpuidle_driver_ref sys u).sys.drivers d).bctimer =
        (sys.drivers d).bctimer ∧
      (∀ e, e ≠ d → (cpuidle_driver_ref sys u).sys.drivers e = sys.drivers e) ∧
      (cpuidle_driver_ref sys u).sys.assoc = sys.assoc) := by
  constructor
  · intro hn
    unfold cpuidle_driver_ref __cpuidle_get_cpu_driver
    rw [hn]
    exact ⟨rfl, rfl⟩
  · intro d hd
    unfold cpuidle_driver_ref __cpuidle_get_cpu_driver
    rw [hd]
    refine ⟨rfl, ?_, ?_, ?_, ?_, ?_, rfl⟩
    · simp [updDrivers]
    · simp [updDrivers]
    · simp [updDrivers]
    · simp [updDrivers]
    · intro e he
      simp [updDrivers, he]

/-- Claim C8: release is a reported no-op when no driver is associated or
the count is already at the floor, decrements by exactly one when the
count is positive, and along any operation sequence a count that starts
nonnegative (0 at registration) stays nonnegative. -/
theorem C8_refcount_floor (cfg : Config) (sys : Sys) :
    (∀ u, sys.assoc u = none → cpuidle_driver_unref sys u = sys) ∧
    (∀ u d, sys.assoc u = some d → (sys.drivers d).refcnt ≤ 0 →
      cpuidle_driver_unref sys u = sys) ∧
    (∀ u d, sys.assoc u = some d → 0 < (sys.drivers d).refcnt →
      ((cpuidle_driver_unref sys u).drivers d).refcnt =
        (sys.drivers d).refcnt - 1) ∧
    (∀ d ops, 0 ≤ (sys.drivers d).refcnt →
      0 ≤ ((run cfg sys ops).drivers d).refcnt) := by
  refine ⟨?_, ?_, ?_, ?_⟩
  · intro u hu
    unfold cpuidle_driver_unref __cpuidle_get_cpu_driver
    rw [hu]
  · intro u d hu hle
    unfold cpuidle_driver_unref __cpuidle_get_cpu_driver
    rw [hu]
    simp [hle]
  · intro u d hu hpos
    unfold cpuidle_driver_unref __cpuidle_get_cpu_driver
    rw [hu]
    have hnle : ¬(sys.drivers d).refcnt ≤ 0 := not_le.mpr hpos
    simp [hnle, updDrivers]
  · intro d ops h
    exact run_refcnt_nonneg cfg sys ops d h

/-- Claim C5, amended: the registration-time initializer computes the
broadcast flag as "some state has TIMER_STOP, OR the flag was already
set" (it only ever sets the flag, never clears it), and no operation that
does not register or unregister this very driver changes the flag. -/
theorem C5_bctimer_characterization (p : List Nat) (drv : CpuidleDriver)
    (cfg : Config) (sys : Sys) (d : Nat) (op : Op)
    (hop : targetsDriver op d = false) :
    (cpuidle_driver_init p drv).bctimer =
      (drv.states.any has_timer_stop || drv.bctimer) ∧
    ((step cfg sys op).drivers d).bctimer = (sys.drivers d).bctimer := by
  refine ⟨init_bctimer p drv, ?_⟩
  cases op with
  | register dp =>
      cases dp with
      | none => rfl
      | some e =>
          have he : d ≠ e := by
            intro hde
            subst hde
            simp [targetsDriver] at hop
          show ((cpuidle_register_driver cfg sys (some e)).sys.drivers d).bctimer = _
          rw [register_drivers_other cfg sys e d he]
  | unregister e =>
      have he : d ≠ e := by
        intro hde
        subst hde
        simp [targetsDriver] at hop
      show ((cpuidle_unregister_driver sys e).sys.drivers d).bctimer = _
      rw [unregister_drivers_other sys e d he]
  | ref cpu =>
      show ((cpuidle_driver_ref sys cpu).sys.drivers d).bctimer = _
      unfold cpuidle_driver_ref __cpuidle_get_cpu_driver
      cases hc : sys.assoc cpu with
      | none => rfl
      | some e =>
          by_cases he : d = e
          · subst he
            simp [updDrivers]
          · simp [updDrivers, he]
  | unref cpu =>
      show ((cpuidle_driver_unref sys cpu).drivers d).bctimer = _
      unfold cpuidle_driver_unref __cpuidle_get_cpu_driver
      cases hc : sys.assoc cpu with
      | none => rfl
      | some e =>
          dsimp only
          split_ifs with hle
          · rfl
          · by_cases he : d = e
            · subst he
              simp [updDrivers]
            · simp [updDrivers, he]

end ASKernel

namespace ASKernel

/-- A producer-supplied idle state with no TIMER_STOP flag. -/
def sampleState : CpuidleState :=
  { name := "C1"
    desc := "producer state"
    exit_latency := 10
    target_residency := 20
    power_usage := 500
    flags := CPUIDLE_FLAG_TIME_VALID
    disabled := false
    enter := EnterCb.user 7 }

/-- Driver 0 of the C1 scenario: mask {0, 1}. -/
def drvC1 : CpuidleDriver :=
  { states := [sampleState], cpumask := some [0, 1], refcnt := 0, bctimer := false }

/-- A second driver (id 1) occupying unit 0. -/
def drvOther : CpuidleDriver :=
  { states := [sampleState], cpumask := some [0], refcnt := 0, bctimer := false }

/-- State of the C1 scenario: unit 0 belongs to driver 1, unit 1 belongs
to driver 0 — both inside driver 0's mask. -/
def sysC1 : Sys :=
  { drivers := fun i => if i = 0 then drvC1 else drvOther
    assoc := fun u => if u = 0 then some 1 else if u = 1 then some 0 else none }

def cfgStd : Config :=
  { possible := [0, 1, 2], cpuidle_off := false, arch_has_cpu_relax := true }

/-- Claim C1 counterexample: before the call unit 1 is associated with
driver 0 and unit 0 with driver 1, both within driver 0's mask {0, 1}.
register(driver 0) returns -EBUSY because of the foreign driver on
unit 0, yet unit 1's pre-existing association is destroyed by the
unwind — so "every association that existed before the call is
unchanged" is false. -/
theorem C1_counterexample :
    sysC1.assoc 0 = some 1 ∧
    sysC1.assoc 1 = some 0 ∧
    (cpuidle_register_driver cfgStd sysC1 (some 0)).ret = Errno.ebusy ∧
    (cpuidle_register_driver cfgStd sysC1 (some 0)).sys.assoc 1 = none := by
  refine ⟨rfl, rfl, ?_, ?_⟩ <;> decide

/-- Witness for the amended C1 at the same scenario. -/
theorem C1_register_conflict_rollback_witness :
    (cpuidle_register_driver cfgStd sysC1 (some 0)).ret = Errno.ebusy ∧
    (cpuidle_register_driver cfgStd sysC1 (some 0)).sys.assoc 0 ≠ some 0 ∧
    (cpuidle_register_driver cfgStd sysC1 (some 0)).sys.assoc 2 = sysC1.assoc 2 := by
  obtain ⟨hret, hmask, hpres, hout⟩ :=
    C1_register_conflict_rollback cfgStd sysC1 0 [0, 1] (by decide) (by decide)
      rfl ⟨0, by decide, 1, by decide, by decide⟩
  exact ⟨hret, hmask 0 (by decide), hout 2 (by decide)⟩

/-- A fully idle system holding only driver 0 (mask {0, 1}). -/
def sysFree : Sys :=
  { drivers := fun _ => drvC1, assoc := fun _ => none }

/-- Witness for C2: registering driver 0 into the free system succeeds,
maps unit 0 to it and leaves its refcount at 0. -/
theorem C2_register_success_postcondition_witness :
    (cpuidle_register_driver cfgStd sysFree (some 0)).sys.assoc 0 = some 0 ∧
    ((cpuidle_register_driver cfgStd sysFree (some 0)).sys.drivers 0).refcnt = 0 := by
  obtain ⟨hmap, hrefcnt, _⟩ :=
    C2_register_success_postcondition cfgStd sysFree 0 (by decide)
  exact ⟨hmap 0 (by decide), hrefcnt⟩

/-- Witness for C9 at the same successful registration. -/
theorem C9_poll_state_injection_witness :
    ((cpuidle_register_driver cfgStd sysFree (some 0)).sys.drivers 0).states.head? =
      some poll_state := by
  exact (C9_poll_state_injection cfgStd sysFree 0 rfl (by decide)).1

/-- A registered driver 0 (mask {0}, refcount 1: one acquired reference). -/
def drvBusyRef : CpuidleDriver :=
  { states := [sampleState], cpumask := some [0], refcnt := 1, bctimer := false }

def sysRef1 : Sys :=
  { drivers := fun _ => drvBusyRef, assoc := fun u => if u = 0 then some 0 else none }

/-- A registered driver 0 (mask {0}, refcount 0). -/
def drvReg : CpuidleDriver :=
  { states := [sampleState], cpumask := some [0], refcnt := 0, bctimer := false }

def sysReg : Sys :=
  { drivers := fun _ => drvReg, assoc := fun u => if u = 0 then some 0 else none }

/-- Witness for C3: with refcount 1 the unregister is a no-op; with
refcount 0 it proceeds and clears the unit. -/
theorem C3_unregister_refcount_gate_witness :
    (cpuidle_unregister_driver sysRef1 0).sys = sysRef1 ∧
    (cpuidle_unregister_driver sysReg 0).sys.assoc 0 = none := by
  refine ⟨((C3_unregister_refcount_gate sysRef1 0).1 (by decide)).1, ?_⟩
  have h2 := (C3_unregister_refcount_gate sysReg 0).2 (by decide)
  exact h2.2 (by decide) 0 (by decide)

end ASKernel

namespace ASKernel

/-- A driver with no TIMER_STOP state but a pre-set broadcast flag. -/
def drvC4 : CpuidleDriver :=
  { states := [sampleState], cpumask := some [0], refcnt := 0, bctimer := true }

def sysC4 : Sys :=
  { drivers := fun _ => drvC4, assoc := fun _ => none }

def cfgNoRelax : Config :=
  { possible := [0], cpuidle_off := false, arch_has_cpu_relax := false }

/-- Claim C4 counterexample: driver 0 carries no TIMER_STOP state, yet a
successful registration invokes the coordinator's enable, because the
initializer never clears a broadcast flag that was already set. -/
theorem C4_counterexample :
    drvC4.states.any has_timer_stop = false ∧
    (cpuidle_register_driver cfgNoRelax sysC4 (some 0)).ret = Errno.ok ∧
    (cpuidle_register_driver cfgNoRelax sysC4 (some 0)).events =
      [BcastEvent.enable [0]] := by
  refine ⟨rfl, ?_, ?_⟩ <;> decide

/-- Witness for the amended C4 at the same scenario: enable is emitted at
registration (flag was set), and the matching disable at unregistration. -/
theorem C4_broadcast_events_witness :
    (cpuidle_register_driver cfgNoRelax sysC4 (some 0)).events =
      [BcastEvent.enable [0]] ∧
    (cpuidle_unregister_driver
      (cpuidle_register_driver cfgNoRelax sysC4 (some 0)).sys 0).events =
      [BcastEvent.disable [0]] := by
  obtain ⟨h1, h2⟩ := C4_broadcast_events cfgNoRelax sysC4 0 (by decide)
  constructor
  · rw [h1]
    decide
  · rw [h2]
    decide

/-- Claim C5 counterexample: after initialization the broadcast flag is
true although no state carries TIMER_STOP — the claimed "true iff some
state carries TIMER_STOP, regardless of the flag's prior value" fails. -/
theorem C5_counterexample :
    ¬((cpuidle_driver_init [0] drvC4).bctimer = true ↔
      drvC4.states.any has_timer_stop = true) := by
  decide

/-- Witness for the amended C5: the init formula at a concrete driver, and
flag preservation under an acquire on another driver. -/
theorem C5_bctimer_characterization_witness :
    (cpuidle_driver_init [0] drvC4).bctimer =
      (drvC4.states.any has_timer_stop || drvC4.bctimer) ∧
    ((step cfgStd sysReg (Op.ref 0)).drivers 1).bctimer =
      (sysReg.drivers 1).bctimer := by
  exact C5_bctimer_characterization [0] drvC4 cfgStd sysReg 1 (Op.ref 0) (by decide)

/-- A driver with a NULL mask and a nonzero refcount field. -/
def drvC6 : CpuidleDriver :=
  { states := [sampleState], cpumask := none, refcnt := 1, bctimer := false }

/-- Unit 0 is held by driver 1, so registering driver 0 (effective mask
{0}) fails -EBUSY. -/
def sysC6 : Sys :=
  { drivers := fun i => if i = 0 then drvC6 else drvOther
    assoc := fun u => if u = 0 then some 1 else none }

def cfgC6 : Config :=
  { possible := [0], cpuidle_off := false, arch_has_cpu_relax := true }

/-- Claim C6 counterexample: the registration fails UnitBusy, yet the
driver's own fields are not left as they were — the in-place init has
already reset refcnt from 1 to 0 and replaced the NULL mask. -/
theorem C6_counterexample :
    (cpuidle_register_driver cfgC6 sysC6 (some 0)).ret = Errno.ebusy ∧
    drvC6.refcnt = 1 ∧
    ((cpuidle_register_driver cfgC6 sysC6 (some 0)).sys.drivers 0).refcnt = 0 ∧
    drvC6.cpumask = none ∧
    ((cpuidle_register_driver cfgC6 sysC6 (some 0)).sys.drivers 0).cpumask =
      some [0] := by
  refine ⟨?_, rfl, ?_, rfl, ?_⟩ <;> decide

/-- Witness for the amended C6 at the same UnitBusy scenario. -/
theorem C6_register_error_effects_witness :
    ((cpuidle_register_driver cfgC6 sysC6 (some 0)).sys.drivers 0).states =
      (sysC6.drivers 0).states ∧
    ((cpuidle_register_driver cfgC6 sysC6 (some 0)).sys.drivers 0).refcnt = 0 ∧
    (cpuidle_register_driver cfgC6 sysC6 (some 0)).sys.assoc 0 = sysC6.assoc 0 := by
  obtain ⟨hs, hr, _, _, hpres, _⟩ :=
    (C6_register_error_effects cfgC6 sysC6 0).2 (by decide)
  exact ⟨hs, hr, hpres 0 (by decide)⟩

/-- Witness for C7: acquiring on unit 0 returns driver 0 and bumps its
refcount; acquiring on the empty unit 5 returns none. -/
theorem C7_acquire_spec_witness :
    (cpuidle_driver_ref sysReg 0).ret = some 0 ∧
    ((cpuidle_driver_ref sysReg 0).sys.drivers 0).refcnt =
      (sysReg.drivers 0).refcnt + 1 ∧
    (cpuidle_driver_ref sysReg 5).ret = none := by
  obtain ⟨hret, hrc, _⟩ := (C7_acquire_spec sysReg 0).2 0 (by decide)
  exact ⟨hret, hrc, ((C7_acquire_spec sysReg 5).1 (by decide)).1⟩

/-- Witness for C8: a release at refcount 1 decrements to 0, a release at
refcount 0 is a no-op, and a ref/unref/unref sequence keeps the count
nonnegative. -/
theorem C8_refcount_floor_witness :
    ((cpuidle_driver_unref sysRef1 0).drivers 0).refcnt =
      (sysRef1.drivers 0).refcnt - 1 ∧
    cpuidle_driver_unref sysReg 0 = sysReg ∧
    0 ≤ ((run cfgStd sysReg [Op.ref 0, Op.unref 0, Op.unref 0]).drivers 0).refcnt := by
  refine ⟨?_, ?_, ?_⟩
  · exact (C8_refcount_floor cfgStd sysRef1).2.2.1 0 0 (by decide) (by decide)
  · exact (C8_refcount_floor cfgStd sysReg).2.1 0 0 (by decide) (by decide)
  · exact (C8_refcount_floor cfgStd sysReg).2.2.2 0
      [Op.ref 0, Op.unref 0, Op.unref 0] (by decide)

/-- Witness for C10: driver 0 is registered on its whole mask {0};
re-registering it fails -EBUSY and clears the association. -/
theorem C10_reregister_erases_witness :
    (cpuidle_register_driver cfgStd sysReg (some 0)).ret = Errno.ebusy ∧
    (cpuidle_register_driver cfgStd sysReg (some 0)).sys.assoc 0 ≠ some 0 := by
  have hout : ∀ u, sysReg.assoc u = some 0 → u ∈ [0] := by
    intro u hu
    by_cases h0 : u = 0
    · simp [h0]
    · simp [sysReg, h0] at hu
  obtain ⟨hret, hclear⟩ := C10_reregister_erases cfgStd sysReg 0 [0]
    (by decide) (by decide) rfl (by decide) (by decide) hout
  exact ⟨hret, hclear 0⟩

end ASKernel
